import Mathlib

/-!
Shallow embedding of the x402 payment core of the unified-clawd-wallet-mcp
repository: `src/x402/client.ts` (X402Client) and `src/x402/payment.ts`
(PaymentHandler), together with the TAP attestation pipeline
(`src/tap/signing.ts`, TAPCredentialManager).  External collaborators
(HTTP fetch, the spend-limit guard, the balance checker, the OS keychain,
the on-chain transfer, the clock and randomness) are supplied through an
explicit environment record; observable effects (audit-log entries,
transaction-history appends, collaborator call counts) are threaded
through an effects record.
-/

namespace Clawd

/-- JavaScript JSON values, as produced by a successful `JSON.parse`.
Numbers are modelled as rationals; object fields are an association list
(duplicate keys are assumed already collapsed, as `JSON.parse` keeps one
binding per key). -/
inductive Json where
  | null : Json
  | bool (b : Bool) : Json
  | num (q : ℚ) : Json
  | str (s : String) : Json
  | arr (elems : List Json) : Json
  | obj (fields : List (String × Json)) : Json

/-- Property access `j.k` on a parsed JSON value: `some v` when the field is
present (even with value `null`), `none` when it is absent or the value is
not an object (JavaScript `undefined`). -/
def Json.getField : Json → String → Option Json
  | .obj fields, key => (fields.find? (fun f => f.1 == key)).map (fun f => f.2)
  | _, _ => none

/-- JavaScript truthiness of a JSON value. -/
def jsTruthy : Json → Bool
  | .null => false
  | .bool b => b
  | .num q => q ≠ 0
  | .str s => s ≠ ""
  | .arr _ => true
  | .obj _ => true

/-- Truthiness of a possibly-absent value (`undefined` is falsy). -/
def truthyOpt : Option Json → Bool
  | some v => jsTruthy v
  | none => false

mutual
/-- JavaScript string coercion of a JSON value, as used inside template
literals (integers print without a fractional part; objects print as
`[object Object]`). -/
def jsToString : Json → String
  | .null => "null"
  | .bool b => cond b "true" "false"
  | .num q => if q.den == 1 then toString q.num else toString q
  | .str s => s
  | .arr xs => String.intercalate "," (jsToStrings xs)
  | .obj _ => "[object Object]"

def jsToStrings : List Json → List String
  | [] => []
  | x :: xs => jsToString x :: jsToStrings xs
end

/-- String coercion of a possibly-absent value: `undefined` interpolates as
the string "undefined". -/
def jsToStringOpt : Option Json → String
  | some v => jsToString v
  | none => "undefined"

/-- A JavaScript number: either NaN or a finite value (modelled as an exact
rational; the source only performs one division by `10^6`, so no rounding
model is needed). -/
inductive JsNum where
  | nan : JsNum
  | num (q : ℚ) : JsNum
deriving DecidableEq

/-- Division of a JavaScript number by a positive integer constant (NaN
propagates); `q / k` computed as the exactly equal `mkRat q.num (q.den * k)`
so that the value is kernel-computable. -/
def JsNum.divBy : JsNum → ℕ → JsNum
  | .nan, _ => .nan
  | .num q, k => .num (mkRat q.num (q.den * k))

/-- Numeric value of a list of decimal digit characters. -/
def digitsVal (cs : List Char) : ℕ :=
  cs.foldl (fun a c => 10 * a + (c.toNat - 48)) 0

/-- JavaScript `parseFloat`: skips leading whitespace, reads an optional
sign, then the longest prefix of the form `digits[.digits]` (any trailing
characters are ignored); yields NaN when no digit is read.  The value
`sign * (ip.fp)` is assembled as one exact rational.  (Exponent notation is
not modelled; the protocol carries plain decimal strings.) -/
def parseFloatJs (s : String) : JsNum :=
  let cs := s.toList.dropWhile Char.isWhitespace
  let signed : ℤ × List Char :=
    match cs with
    | '-' :: t => (-1, t)
    | '+' :: t => (1, t)
    | _ => (1, cs)
  let ip := signed.2.takeWhile Char.isDigit
  let rest := signed.2.drop ip.length
  let fp :=
    match rest with
    | '.' :: t => t.takeWhile Char.isDigit
    | _ => []
  if ip.isEmpty && fp.isEmpty then .nan
  else .num (mkRat (signed.1 * (digitsVal ip * 10 ^ fp.length + digitsVal fp)) (10 ^ fp.length))

/-- `X402Client.parseAmount` applied to the (possibly absent, possibly
non-string) `maxAmountRequired` field: `parseFloat(maxAmountRequired) /
Math.pow(10, 6)`.  `parseFloat` of a JSON number round-trips through its
string form; of `undefined`, `null`, booleans, arrays or objects it is NaN
here. -/
def parseAmountField : Option Json → JsNum
  | some (.str s) => (parseFloatJs s).divBy 1000000
  | some (.num q) => (JsNum.num q).divBy 1000000
  | _ => .nan

/-- JavaScript `Number.prototype.toFixed(2)`: round to the nearest
hundredth (ties rounding up, i.e. `round(q * 100)`, computed as
`floor(q * 100 + 1/2) = (200 * num + den) fdiv (2 * den)`) and print with
exactly two decimals; NaN prints as "NaN". -/
def toFixed2 : JsNum → String
  | .nan => "NaN"
  | .num q =>
    let r : ℤ := (200 * q.num + q.den).fdiv (2 * q.den)
    let n : ℕ := r.natAbs
    let sign := if r < 0 then "-" else ""
    sign ++ toString (n / 100) ++ "." ++ (if n % 100 < 10 then "0" else "") ++ toString (n % 100)

/-- A JavaScript exception, reduced to its `.message`. -/
structure JsError where
  msg : String
deriving DecidableEq

/-- An HTTP response body as observed by the client: either text that
`JSON.parse` accepts (carrying its parse), or text that `JSON.parse`
rejects (carrying the raw text and the message of the SyntaxError the
engine would throw).  An empty body string is identified with an absent
body, since every access in the source is guarded by a truthiness check. -/
inductive Body where
  | jsonB (j : Json) : Body
  | rawB (text : String) (errMsg : String) : Body

/-- `JSON.parse` on a body. -/
def jsonParseBody : Body → Except JsError Json
  | .jsonB j => .ok j
  | .rawB _ m => .error ⟨m⟩

/-- The value a 2xx body contributes to the result: its parse when it is
valid JSON, the raw text otherwise (payment.ts lines 262-269). -/
def bodyToJson : Body → Json
  | .jsonB j => j
  | .rawB s _ => .str s

/-- `HttpResponse` as returned by `X402Client.makeRequest`. -/
structure HttpResponse where
  status : ℕ
  body : Option Body

/-- `X402Client.parseX402Response`: `JSON.parse` the body, then require
`parsed.x402Version !== undefined` (present, even if null) and
`Array.isArray(parsed.accepts)`; otherwise null.  A parse failure is caught
and yields null. -/
def parseX402Response (b : Body) : Option Json :=
  match b with
  | .rawB _ _ => none
  | .jsonB j =>
    if (j.getField "x402Version").isSome then
      match j.getField "accepts" with
      | some (.arr _) => some j
      | _ => none
    else none

/-- The `accepts` array of a parsed x402 response. -/
def acceptsOf (j : Json) : List Json :=
  match j.getField "accepts" with
  | some (.arr xs) => xs
  | _ => []

/-- The predicate `opt.scheme === 'exact'` (strict equality, true exactly
when the field holds that string). -/
def isExact (o : Json) : Bool :=
  match o.getField "scheme" with
  | some (.str s) => s == "exact"
  | _ => false

/-- The predicate `opt.scheme === 'exact' && opt.network === 'base'`. -/
def isBaseExact (o : Json) : Bool :=
  isExact o &&
    (match o.getField "network" with
     | some (.str s) => s == "base"
     | _ => false)

/-- `X402Client.selectPaymentOption`: first option with the exact scheme on
Base, else first option with the exact scheme on any network, else the
first option, else null. -/
def selectPaymentOption (accepts : List Json) : Option Json :=
  match accepts.find? isBaseExact with
  | some o => some o
  | none =>
    match accepts.find? isExact with
    | some o => some o
    | none => accepts.head?

/-- The lowercase hexadecimal digit for a value below 16. -/
def hexDigit (n : ℕ) : Char := Nat.digitChar n

/-- The two hexadecimal digits of one byte. -/
def byteToHexChars (b : ℕ) : List Char := [hexDigit (b / 16), hexDigit (b % 16)]

/-- The hex characters of a byte string. -/
def hexChars (bytes : List ℕ) : List Char := (bytes.map byteToHexChars).flatten

/-- `ethers.hexlify`: "0x" followed by two lowercase hex digits per byte. -/
def hexlify (bytes : List ℕ) : String := ⟨'0' :: 'x' :: hexChars bytes⟩

/-- The EIP-3009 style authorization object built by
`X402Client.generatePaymentAuthorization` (fields as the source lays them
out; `validAfter`/`validBefore` are decimal strings). -/
structure AuthorizationEnvelope where
  fromAddr : String
  toAddr : String
  value : String
  validAfter : String
  validBefore : String
  nonce : String
deriving DecidableEq

/-- `X402Client.generatePaymentAuthorization` (the envelope construction):
`now` is the wall clock in Unix seconds at signing time and `randBytes` the
32 bytes drawn from `ethers.randomBytes(32)`.  The EIP-712 signature over
these fields is produced afterwards by the external ethers wallet and does
not change the envelope. -/
def generatePaymentAuthorization (walletAddress payTo amount : String)
    (now : ℤ) (randBytes : List ℕ) (validityWindow : ℤ) : AuthorizationEnvelope :=
  { fromAddr := walletAddress
    toAddr := payTo
    value := amount
    validAfter := toString (now - 60)
    validBefore := toString (now + validityWindow)
    nonce := hexlify randBytes }

/-- The default `validityWindow` parameter (3600 seconds). -/
def defaultValidityWindow : ℤ := 3600

/-- `generatePaymentAuthorization` as called with no explicit validity
window. -/
def generatePaymentAuthorizationDefault (walletAddress payTo amount : String)
    (now : ℤ) (randBytes : List ℕ) : AuthorizationEnvelope :=
  generatePaymentAuthorization walletAddress payTo amount now randBytes defaultValidityWindow

/-- The ethers wallet, reduced to its address (key material stays inside
the external signer). -/
structure Wallet where
  address : String
deriving DecidableEq

/-- Result shape of `PaymentHandler.executeUSDCTransfer` (that method
catches its own exceptions, so it always returns this shape). -/
structure TransferResult where
  txHash : String
  success : Bool
  errMsg : Option String
deriving DecidableEq

/-- Result shape of `SpendLimits.validateTransaction`. -/
structure ValidationResult where
  valid : Bool
  errors : List String
deriving DecidableEq

/-- The components of `new URL(url)` the source reads. -/
structure UrlParts where
  hostname : String
  host : String
  pathname : String
  search : String
deriving DecidableEq

/-- Agent registration data as loaded by `TAPCredentialManager.loadAgent`. -/
structure TAPAgentInfo where
  agentId : String
  walletAddress : String
  name : String
  keyId : String
  registeredAt : String
  registryUrl : String
deriving DecidableEq

/-- Attestation data as loaded by `TAPCredentialManager.loadAttestation`;
`expiresAt` is the expiry instant in epoch milliseconds (the source stores
a date string and compares `new Date(expiresAt) <= new Date()`). -/
structure TAPAttestation where
  expiresAt : ℤ
  identityLevel : String
  attestationJwt : String
deriving DecidableEq

/-- The credential bundle assembled by
`TAPCredentialManager.loadCredentials`. -/
structure TAPCredentials where
  agentId : String
  walletAddress : String
  name : String
  keyId : String
  identityLevel : String
  attestationJwt : String
  attestationExpires : ℤ
  registeredAt : String
  registryUrl : String
deriving DecidableEq

/-- The three identity headers returned by `TAPSigner.signRequest`. -/
structure TAPHeaders where
  attestationHeader : String
  signatureInputHeader : String
  signatureHeader : String
deriving DecidableEq

/-- Local TAP state: results of the agent-file read, the attestation-file
read (both return null on any read/parse failure) and the OS-keychain
private-key lookup (which can itself throw). -/
structure TapEnv where
  agent : Option TAPAgentInfo
  attestation : Option TAPAttestation
  privateKeyHex : Except JsError (Option String)

/-- Outcomes of every external collaborator touched by one
`executePayment` run.  Each fallible call is an `Except`; the same field is
read wherever the source repeats the same call. -/
structure Env where
  /-- Outcome of the initial `X402Client.makeRequest(url, ...)`. -/
  initialResponse : Except JsError HttpResponse
  /-- Outcome of `SpendLimits.validateTransaction(amount)`. -/
  validateResult : Except JsError ValidationResult
  /-- Balance reported for the wallet by the balance collaborator. -/
  balance : Except JsError JsNum
  /-- Outcome of `WalletManager.getWallet()`. -/
  getWallet : Except JsError Wallet
  /-- Outcome of the ethers USDC `transfer` call plus confirmation wait
  (receipt status 1 gives success; a revert or a thrown error is already
  folded to `success := false` by `executeUSDCTransfer`'s own catch). -/
  transferOutcome : TransferResult
  /-- Local TAP credential state. -/
  tap : TapEnv
  /-- Outcome of `new URL(url)`. -/
  urlParse : Except JsError UrlParts
  /-- Outcome of the retried `X402Client.makeRequest` with payment proof. -/
  paymentResponse : Except JsError HttpResponse
  /-- Outcome of `TransactionHistory.addTransaction`. -/
  addTxResult : Except JsError Unit
  /-- `Date.now()` in milliseconds (the clock is modelled as constant
  within one attempt). -/
  nowMs : ℤ
  /-- `Math.floor(Date.now() / 1000)` as read by `TAPSigner.signRequest`. -/
  nowSec : ℤ
  /-- `crypto.randomUUID()` drawn by `TAPSigner.signRequest`. -/
  tapNonce : String
  /-- The Ed25519 signature (base64) produced by the external noble library
  over a signature base. -/
  edSign : String → String

/-- Handler state: whether `initialize()` has run (provider, USDC contract
and balance checker are set). -/
structure HandlerState where
  initialized : Bool
deriving DecidableEq

/-- One local transaction record (`Transaction` in `types/index.ts`). -/
structure TransactionRecord where
  id : String
  timestamp : ℤ
  service : String
  description : String
  amount : JsNum
  currency : String
  txHash : String
  status : String
deriving DecidableEq

/-- Observable effects of one run: audit-log action names in order
(Modelled from the spec: `AuditLogger` of src/security/audit.ts is not in
src/; section 6 makes `logAction` fire-and-forget, so it is modelled as an
append that cannot fail), the records passed to
`TransactionHistory.addTransaction` in order, call counts of the
limit/balance/transfer/attestation collaborators, and the Authorization
header of the retried request when one was issued. -/
structure Effects where
  audit : List String
  txs : List TransactionRecord
  limitChecks : ℕ
  balanceChecks : ℕ
  transferCalls : ℕ
  tapBuildCalls : ℕ
  retryAuth : Option String

/-- The empty effects record. -/
def Effects.init : Effects := ⟨[], [], 0, 0, 0, 0, none⟩

/-- Append one audit action. -/
def logA (e : Effects) (action : String) : Effects :=
  { e with audit := e.audit ++ [action] }

/-- The result shape of `executePayment` (`PaymentResult`); absent optional
fields are `none`, and `errVal` carries the JavaScript value assigned to
`error` (a string in every reachable branch except a merchant body whose
`error`/`message` field is a non-string). -/
structure PaymentResult where
  success : Bool
  response : Option Json
  errVal : Option Json
  amountPaid : Option JsNum
  service : Option String
  txHash : Option String

/-- A bare `{success: false, error: e}` result. -/
def failR (e : Json) : PaymentResult := ⟨false, none, some e, none, none, none⟩

/-- `TAPCredentialManager.loadCredentials`: loads the agent file, the
attestation file and the keychain private key (the keychain read is awaited
before the null checks, so its exception propagates even when the files
are missing); returns null when any piece is missing or the attestation
expiry is not strictly in the future. -/
def loadCredentials (env : Env) : Except JsError (Option TAPCredentials) := do
  let pk? ← env.tap.privateKeyHex
  match env.tap.agent, env.tap.attestation, pk? with
  | some agent, some att, some _ =>
    if att.expiresAt ≤ env.nowMs then pure none
    else
      pure (some
        { agentId := agent.agentId
          walletAddress := agent.walletAddress
          name := agent.name
          keyId := agent.keyId
          identityLevel := att.identityLevel
          attestationJwt := att.attestationJwt
          attestationExpires := att.expiresAt
          registeredAt := agent.registeredAt
          registryUrl := agent.registryUrl })
  | _, _, _ => pure none

/-- `TAPSigner.signRequest`: builds the RFC 9421 signature base over
method, authority, path, payment header and attestation token, signs it
with the external Ed25519 signer, and returns the three headers.
`new URL(params.url)` can throw. -/
def signRequest (env : Env) (method : String) (payment : String)
    (creds : TAPCredentials) : Except JsError TAPHeaders := do
  let u ← env.urlParse
  let created := env.nowSec
  let expires := created + 480
  let components := "\"@method\" \"@authority\" \"@path\" \"x-payment\" \"x-tap-attestation\""
  let sigParams := "(" ++ components ++ "); created=" ++ toString created ++
    "; expires=" ++ toString expires ++ "; keyid=\"" ++ creds.keyId ++
    "\"; alg=\"ed25519\"; nonce=\"" ++ env.tapNonce ++ "\"; tag=\"agent-payer-auth\""
  let signatureBase := String.intercalate "\n"
    ["\"@method\": " ++ method.toUpper,
     "\"@authority\": " ++ u.host,
     "\"@path\": " ++ u.pathname ++ u.search,
     "\"x-payment\": " ++ payment,
     "\"x-tap-attestation\": " ++ creds.attestationJwt,
     "\"@signature-params\": " ++ sigParams]
  let signatureB64 := env.edSign signatureBase
  pure
    { attestationHeader := creds.attestationJwt
      signatureInputHeader := "sig=" ++ sigParams
      signatureHeader := "sig=:" ++ signatureB64 ++ ":" }

/-- `TAPSigner.buildHeaders`: null when credentials are unavailable (a
second keychain read re-checks the private key), otherwise the signed
headers; exceptions from the keychain or URL parsing propagate to the
caller. -/
def buildHeaders (env : Env) (method : String) (payment : String) :
    Except JsError (Option TAPHeaders) := do
  let creds? ← loadCredentials env
  match creds? with
  | none => pure none
  | some creds => do
    let pk? ← env.tap.privateKeyHex
    match pk? with
    | none => pure none
    | some _ => do
      let h ← signRequest env method payment creds
      pure (some h)

/-- `PaymentHandler.executeUSDCTransfer`: throws-become-results inside its
own try/catch; an uninitialized provider or a failing `getWallet` yield a
failure result, otherwise the outcome of the ethers transfer call. -/
def executeUSDCTransfer (st : HandlerState) (env : Env) : TransferResult :=
  if st.initialized = false then ⟨"", false, some "Payment handler not initialized"⟩
  else
    match env.getWallet with
    | .error e => ⟨"", false, some e.msg⟩
    | .ok _ => env.transferOutcome

/-- Modelled from the spec: `BalanceChecker.hasSufficientBalance` of
src/wallet/balance.ts is not in src/.  Section 4.1 step 5 specifies the
check "current balance >= required amount" against the external balance
collaborator; NaN compares false. -/
def hasSufficientBalance (balance required : JsNum) : Bool :=
  match balance, required with
  | .num b, .num r => decide (r ≤ b)
  | _, _ => false

/-- The interpolation `${transferResult.error}` (an undefined field prints
as "undefined"). -/
def jsTemplateOptStr : Option String → String
  | some s => s
  | none => "undefined"

/-- The nonce of the x402 Authorization header (payment.ts line 199):
`paymentOption.extra?.nonce || clawd-<Date.now()>`, a JavaScript falsy
check, with non-string truthy values coerced by the template literal. -/
def buildNonce (extraNonce : Option Json) (nowMs : ℤ) : String :=
  match extraNonce with
  | some v => if jsTruthy v then jsToString v else "clawd-" ++ toString nowMs
  | none => "clawd-" ++ toString nowMs

/-- The x402 Authorization header (payment.ts line 200). -/
def buildAuthHeader (recipient nonce payer txHash : String) : String :=
  "x402 recipient=\"" ++ recipient ++ "\", nonce=\"" ++ nonce ++
    "\", payer=\"" ++ payer ++ "\", tx_hash=\"" ++ txHash ++ "\""

/-- The record description: `description || paymentOption.description ||
'x402 payment'` (falsy chain). -/
def descriptionOf (description : Option String) (opt : Json) : String :=
  let fromOpt :=
    match opt.getField "description" with
    | some v => if jsTruthy v then jsToString v else "x402 payment"
    | none => "x402 payment"
  match description with
  | some d => if d = "" then fromOpt else d
  | none => fromOpt

/-- The error surfaced for a non-2xx retried response (payment.ts lines
288-301): the parsed body's `error` field when truthy, else its `message`
field when truthy, else "Payment failed with status N" (also when the body
is absent or does not parse). -/
def errorMsgFor (status : ℕ) (body : Option Body) : Json :=
  let dflt := Json.str ("Payment failed with status " ++ toString status)
  match body with
  | none => dflt
  | some (.rawB _ _) => dflt
  | some (.jsonB j) =>
    if truthyOpt (j.getField "error") then (j.getField "error").getD .null
    else if truthyOpt (j.getField "message") then (j.getField "message").getD .null
    else dflt

/-- The audit effect of the best-effort TAP block (payment.ts lines
207-228): `tap_headers_included` when headers came back, nothing when
`buildHeaders` returned null, `tap_headers_skipped` when it threw. -/
def tapAudit (eff : Effects) (B : Except JsError (Option TAPHeaders)) : Effects :=
  match B with
  | .ok (some _) => logA eff "tap_headers_included"
  | .ok none => eff
  | .error _ => logA eff "tap_headers_skipped"

/-- Steps 10-11 of `executePayment` (payment.ts lines 230-306): the retried
request and result reconciliation.  On 2xx, exactly one success
TransactionRecord is appended and logged; on any other status the failure
is logged and the merchant-derived error surfaced; no record is appended. -/
def reconcile (payRes : Except JsError HttpResponse) (urlRes : Except JsError UrlParts)
    (addTxRes : Except JsError Unit) (nowMs : ℤ) (description : Option String)
    (opt : Json) (amount : JsNum) (tr : TransferResult) (eff : Effects) :
    Except JsError PaymentResult × Effects :=
  match payRes with
  | .error e => (.error e, eff)
  | .ok pr =>
    match urlRes with
    | .error e => (.error e, eff)
    | .ok u =>
      if 200 ≤ pr.status ∧ pr.status < 300 then
        let txr : TransactionRecord :=
          { id := tr.txHash
            timestamp := nowMs
            service := u.hostname
            description := descriptionOf description opt
            amount := amount
            currency := "USDC"
            txHash := tr.txHash
            status := "success" }
        let eff := { eff with txs := eff.txs ++ [txr] }
        match addTxRes with
        | .error e => (.error e, eff)
        | .ok _ =>
          let eff := logA eff "payment_executed"
          let responseData :=
            match pr.body with
            | none => Json.null
            | some b2 => bodyToJson b2
          (.ok ⟨true, some responseData, none, some amount, some u.hostname, some tr.txHash⟩, eff)
      else
        let eff := logA eff "payment_failed"
        (.ok (failR (errorMsgFor pr.status pr.body)), eff)

/-- The body of `PaymentHandler.executePayment` (payment.ts lines 115-307,
the region inside the outer try), step by step: initial request, 402
detection, challenge parsing, option selection, amount validation, balance
check, audited on-chain transfer, Authorization header construction,
best-effort TAP header attachment, retried request, and reconciliation.
`Except.error` is a JavaScript exception travelling to the outer catch;
effects accumulated before the throw persist. -/
def runPayment (st : HandlerState) (env : Env) (method : String)
    (description : Option String) : Except JsError PaymentResult × Effects :=
  let eff := Effects.init
  match env.initialResponse with
  | .error e => (.error e, eff)
  | .ok initial =>
    if initial.status ≠ 402 then
      match initial.body with
      | none => (.ok ⟨true, some .null, none, none, none, none⟩, eff)
      | some b =>
        match jsonParseBody b with
        | .error e => (.error e, eff)
        | .ok j => (.ok ⟨true, some j, none, none, none, none⟩, eff)
    else
      match initial.body with
      | none => (.ok (failR (.str "Payment required but no payment details provided")), eff)
      | some b =>
        match parseX402Response b with
        | none => (.ok (failR (.str "Invalid x402 response format")), eff)
        | some x =>
          let accepts := acceptsOf x
          if accepts.isEmpty then
            (.ok (failR (.str "Invalid x402 response format")), eff)
          else
            match selectPaymentOption accepts with
            | none => (.ok (failR (.str "No compatible payment option found")), eff)
            | some opt =>
              let amount := parseAmountField (opt.getField "maxAmountRequired")
              let eff := { eff with limitChecks := eff.limitChecks + 1 }
              match env.validateResult with
              | .error e => (.error e, eff)
              | .ok v =>
                if v.valid = false then
                  (.ok (failR (.str (String.intercalate ", " v.errors))), eff)
                else
                  let eff := { eff with balanceChecks := eff.balanceChecks + 1 }
                  if st.initialized = false then
                    (.error ⟨"Payment handler not initialized"⟩, eff)
                  else
                    match env.getWallet with
                    | .error e => (.error e, eff)
                    | .ok _ =>
                      match env.balance with
                      | .error e => (.error e, eff)
                      | .ok bal =>
                        if hasSufficientBalance bal amount = false then
                          (.ok (failR (.str ("Insufficient balance. Required: $" ++
                            toFixed2 amount ++ " USDC"))), eff)
                        else
                          let eff := logA eff "payment_approved"
                          match env.getWallet with
                          | .error e => (.error e, eff)
                          | .ok wallet =>
                            let eff := { eff with transferCalls := eff.transferCalls + 1 }
                            let tr := executeUSDCTransfer st env
                            if tr.success = false ∨ tr.txHash = "" then
                              (.ok (failR (.str ("USDC transfer failed: " ++
                                jsTemplateOptStr tr.errMsg))), logA eff "payment_failed")
                            else
                              let nonce := buildNonce
                                ((opt.getField "extra").bind (fun ex => ex.getField "nonce"))
                                env.nowMs
                              let authHeader := buildAuthHeader
                                (jsToStringOpt (opt.getField "payTo")) nonce
                                wallet.address tr.txHash
                              let eff := { eff with tapBuildCalls := eff.tapBuildCalls + 1 }
                              let eff := tapAudit eff (buildHeaders env method authHeader)
                              let eff := { eff with retryAuth := some authHeader }
                              reconcile env.paymentResponse env.urlParse env.addTxResult
                                env.nowMs description opt amount tr eff

/-- `PaymentHandler.executePayment`: the outer try/catch.  A JavaScript
exception from any inner step is logged as `payment_error` and folded into
a structured `{success: false, error: message}` result; nothing propagates
to the caller. -/
def executePayment (st : HandlerState) (env : Env) (method : String)
    (description : Option String) : PaymentResult × Effects :=
  match runPayment st env method description with
  | (.ok r, eff) => (r, eff)
  | (.error e, eff) => (failR (.str e.msg), logA eff "payment_error")

/-! Concrete fixtures used to instantiate the theorems below.  `baseEnv` is
the specification's walk-through scenario: a 402 challenge accepting one
exact/base option of 10000 base units (0.01 USDC), a funded wallet, a
succeeding transfer and a 200 on the retried request. -/

/-- An initialized handler. -/
def stInit : HandlerState := ⟨true⟩

/-- The challenge's single payment option. -/
def challengeOpt : Json := .obj [("scheme", .str "exact"), ("network", .str "base"),
  ("maxAmountRequired", .str "10000"), ("payTo", .str "0xRECIPIENT"),
  ("asset", .str "0xUSDC"), ("resource", .str "https://svc/api")]

/-- A well-formed x402 challenge body. -/
def challenge : Json := .obj [("x402Version", .num (mkRat 1 1)),
  ("accepts", .arr [challengeOpt])]

/-- A payment option on a secondary network without the exact scheme. -/
def otherOpt : Json := .obj [("scheme", .str "permit"), ("network", .str "ethereum"),
  ("maxAmountRequired", .str "10000"), ("payTo", .str "0xRECIPIENT")]

/-- An exact-scheme option on a secondary network. -/
def otherExactOpt : Json := .obj [("scheme", .str "exact"), ("network", .str "ethereum"),
  ("maxAmountRequired", .str "10000"), ("payTo", .str "0xRECIPIENT")]

/-- No TAP identity configured locally. -/
def tapEmpty : TapEnv := ⟨none, none, .ok none⟩

/-- A registered TAP agent. -/
def tapAgent : TAPAgentInfo :=
  ⟨"agent-1", "0xPAYER", "clawd", "key-1", "2024-01-01", "https://registry"⟩

/-- TAP state whose attestation expired before `baseEnv.nowMs = 1000`. -/
def tapExpired : TapEnv := ⟨some tapAgent, some ⟨500, "basic", "jwt-old"⟩, .ok (some "ab")⟩

/-- TAP state with a currently valid attestation. -/
def tapValid : TapEnv := ⟨some tapAgent, some ⟨999999, "basic", "jwt"⟩, .ok (some "ab")⟩

/-- The walk-through environment. -/
def baseEnv : Env :=
  { initialResponse := .ok ⟨402, some (.jsonB challenge)⟩
    validateResult := .ok ⟨true, []⟩
    balance := .ok (.num (mkRat 50 1))
    getWallet := .ok ⟨"0xPAYER"⟩
    transferOutcome := ⟨"0xhash", true, none⟩
    tap := tapEmpty
    urlParse := .ok ⟨"svc", "svc", "/api", ""⟩
    paymentResponse := .ok ⟨200, some (.jsonB .null)⟩
    addTxResult := .ok ()
    nowMs := 1000
    nowSec := 1
    tapNonce := "uuid"
    edSign := fun _ => "sig" }

/-- A free resource answering 200 with a JSON body. -/
def envFree : Env :=
  { baseEnv with initialResponse := .ok ⟨200, some (.jsonB (.obj [("ok", .bool true)]))⟩ }

/-- A non-402 response whose body is not valid JSON. -/
def envRawBody : Env :=
  { baseEnv with initialResponse := .ok ⟨200, some (.rawB "hello" "Unexpected token h in JSON at position 0")⟩ }

/-- The walk-through challenge against an empty wallet. -/
def envPoor : Env := { baseEnv with balance := .ok (.num (mkRat 0 1)) }

/-- The merchant body returned by `envFail500`. -/
def errBody500 : Json := .obj [("error", .str ""), ("message", .str "m")]

/-- Transfer succeeds, then the retried request is rejected with a 500
whose body has a falsy `error` field and a truthy `message` field. -/
def envFail500 : Env :=
  { baseEnv with paymentResponse := .ok ⟨500, some (.jsonB errBody500)⟩ }

/-- The initial request itself throws. -/
def envNetError : Env := { baseEnv with initialResponse := .error ⟨"network down"⟩ }


/-- Thirty-two zero bytes, a concrete draw of `ethers.randomBytes(32)`. -/
def rand1 : List ℕ := List.replicate 32 0

/-- A second draw differing from `rand1` in its first byte. -/
def rand2 : List ℕ := 1 :: List.replicate 31 0

/-- The shape invariant of one run outcome: an inner success, an inner
structured failure carrying an error value, or a JavaScript exception
headed for the outer catch. -/
def resultStructured : Except JsError PaymentResult × Effects → Prop
  | (.ok r, _) => r.success = true ∨ r.errVal.isSome = true
  | (.error _, _) => True

/-- The walk-through environment with an expired attestation on file. -/
def envTapExpired : Env := { baseEnv with tap := tapExpired }

/-! Theorems. -/

/-- C2: selectPaymentOption is a pure deterministic function of the option
list: any list containing an exact-scheme option on the primary (base)
network yields such an option (never another network's), even when it is
not first; a list with no exact-scheme option yields the first listed
option; a list whose exact-scheme options are all on other networks yields
the first such exact option. -/
theorem selectPaymentOption_spec (accepts : List Json) :
    ((∃ o ∈ accepts, isBaseExact o = true) →
      ∃ o, selectPaymentOption accepts = some o ∧ isBaseExact o = true) ∧
    ((∀ o ∈ accepts, isExact o = false) →
      selectPaymentOption accepts = accepts.head?) ∧
    ((∀ o ∈ accepts, isBaseExact o = false) → (∃ o ∈ accepts, isExact o = true) →
      selectPaymentOption accepts = accepts.find? isExact) := by
  refine ⟨?_, ?_, ?_⟩
  · rintro ⟨o, ho, hbe⟩
    have hs : (accepts.find? isBaseExact).isSome := by
      rw [List.find?_isSome]
      exact ⟨o, ho, hbe⟩
    obtain ⟨o', ho'⟩ := Option.isSome_iff_exists.mp hs
    exact ⟨o', by simp [selectPaymentOption, ho'], List.find?_some ho'⟩
  · intro h
    have h1 : accepts.find? isBaseExact = none := by
      rw [List.find?_eq_none]
      intro x hx
      simp [isBaseExact, h x hx]
    have h2 : accepts.find? isExact = none := by
      rw [List.find?_eq_none]
      intro x hx
      simp [h x hx]
    simp [selectPaymentOption, h1, h2]
  · rintro hnb ⟨o, ho, he⟩
    have h1 : accepts.find? isBaseExact = none := by
      rw [List.find?_eq_none]
      intro x hx
      simp [hnb x hx]
    cases hf : accepts.find? isExact with
    | some o' => simp [selectPaymentOption, h1, hf]
    | none => exact absurd he (by simpa using List.find?_eq_none.mp hf o ho)

/-- Witness for C2: on a list whose base/exact option is second, the
selector still returns it. -/
theorem selectPaymentOption_spec_witness :
    ∃ o, selectPaymentOption [otherOpt, challengeOpt] = some o ∧ isBaseExact o = true :=
  (selectPaymentOption_spec [otherOpt, challengeOpt]).1
    ⟨challengeOpt, List.Mem.tail _ (List.Mem.head _), by decide⟩

/-- C8: with no explicit validity window, every authorization envelope has
validAfter equal to the signing-time clock minus 60 seconds and validBefore
equal to the clock plus 3600 seconds. -/
theorem generatePaymentAuthorization_defaultWindow (w p a : String) (now : ℤ) (rand : List ℕ) :
    (generatePaymentAuthorizationDefault w p a now rand).validAfter = toString (now - 60) ∧
    (generatePaymentAuthorizationDefault w p a now rand).validBefore = toString (now + 3600) :=
  ⟨rfl, rfl⟩

/-- Helper: hexadecimal digits are distinct below 16. -/
theorem hexDigit_inj_bounded : ∀ a < 16, ∀ b < 16, hexDigit a = hexDigit b → a = b := by decide

/-- Helper: the hex rendering of a byte string determines the bytes. -/
theorem hexChars_inj : ∀ (bs cs : List ℕ), (∀ x ∈ bs, x < 256) → (∀ x ∈ cs, x < 256) →
    hexChars bs = hexChars cs → bs = cs := by
  intro bs
  induction bs with
  | nil =>
    intro cs _ _ h
    cases cs with
    | nil => rfl
    | cons c t => simp [hexChars, byteToHexChars] at h
  | cons b t ih =>
    intro cs hbs hcs h
    cases cs with
    | nil => simp [hexChars, byteToHexChars] at h
    | cons c u =>
      simp only [hexChars, List.map_cons, List.flatten_cons, byteToHexChars,
        List.cons_append, List.nil_append, List.cons.injEq] at h
      obtain ⟨h1, h2, h3⟩ := h
      have hb : b < 256 := hbs b (List.Mem.head _)
      have hc : c < 256 := hcs c (List.Mem.head _)
      have e1 : b / 16 = c / 16 :=
        hexDigit_inj_bounded (b / 16) (by omega) (c / 16) (by omega) h1
      have e2 : b % 16 = c % 16 :=
        hexDigit_inj_bounded (b % 16) (by omega) (c % 16) (by omega) h2
      have hbc : b = c := by omega
      subst hbc
      have ht : t = u := ih u (fun x hx => hbs x (List.Mem.tail _ hx))
        (fun x hx => hcs x (List.Mem.tail _ hx)) (by simpa [hexChars] using h3)
      rw [ht]

/-- C9: two envelope productions with distinct fresh 32-byte randomness
carry different nonces, and the nonce is hexlify of the random bytes alone
(independent of payer, payee, amount and clock). -/
theorem generatePaymentAuthorization_nonce_distinct
    (w w' p p' a a' : String) (now now' : ℤ) (r r' : List ℕ)
    (hlen : r.length = 32) (hlen' : r'.length = 32)
    (hr : ∀ x ∈ r, x < 256) (hr' : ∀ x ∈ r', x < 256) (hne : r ≠ r') :
    (generatePaymentAuthorizationDefault w p a now r).nonce ≠
      (generatePaymentAuthorizationDefault w' p' a' now' r').nonce ∧
    (generatePaymentAuthorizationDefault w p a now r).nonce = hexlify r := by
  constructor
  · intro h
    apply hne
    have hdata : '0' :: 'x' :: hexChars r = '0' :: 'x' :: hexChars r' := congrArg String.data h
    simp only [List.cons.injEq, true_and] at hdata
    exact hexChars_inj r r' hr hr' hdata
  · rfl

/-- Witness for C9 at two concrete byte draws differing in one byte. -/
theorem generatePaymentAuthorization_nonce_distinct_witness :
    (generatePaymentAuthorizationDefault "0xPAYER" "0xRECIPIENT" "10000" 0 rand1).nonce ≠
      (generatePaymentAuthorizationDefault "0xPAYER" "0xRECIPIENT" "10000" 0 rand2).nonce :=
  (generatePaymentAuthorization_nonce_distinct "0xPAYER" "0xPAYER" "0xRECIPIENT" "0xRECIPIENT"
    "10000" "10000" 0 0 rand1 rand2 (by decide) (by decide) (by decide) (by decide) (by decide)).1

/-- C10 (amended): the Authorization-header nonce equals the stringified
extra.nonce when a truthy one is supplied; when extra.nonce is absent or
falsy the nonce is "clawd-" followed by the current milliseconds, so two
attempts in the same millisecond with no truthy merchant nonce agree. -/
theorem buildNonce_spec (v : Option Json) (nowMs : ℤ) :
    (∀ x, v = some x → jsTruthy x = true → buildNonce v nowMs = jsToString x) ∧
    (∀ x, v = some x → jsTruthy x = false → buildNonce v nowMs = "clawd-" ++ toString nowMs) ∧
    (v = none → buildNonce v nowMs = "clawd-" ++ toString nowMs) := by
  refine ⟨?_, ?_, ?_⟩
  · rintro x rfl h
    simp [buildNonce, h]
  · rintro x rfl h
    simp [buildNonce, h]
  · rintro rfl
    rfl

/-- Witness for C10 at a supplied non-empty nonce. -/
theorem buildNonce_spec_witness : buildNonce (some (.str "abc")) 7 = "abc" :=
  (buildNonce_spec (some (.str "abc")) 7).1 (.str "abc") rfl (by decide)

/-- Counterexample for C10 as stated: a challenge-supplied empty-string
nonce is not used; the header nonce falls back to the time-derived one. -/
theorem buildNonce_counterexample :
    buildNonce (some (.str "")) 5 = "clawd-5" ∧ buildNonce (some (.str "")) 5 ≠ "" := by
  constructor
  · decide
  · decide

/-- C1 (amended): on any non-402 initial response, executePayment performs
zero limit, balance, transfer and attestation calls and appends no records;
it returns success:true with the parsed body when the body is absent or
valid JSON, and a caught-parse-error failure (logged payment_error) when
the body is non-empty invalid JSON. -/
theorem executePayment_non402 (st : HandlerState) (env : Env) (m : String) (d : Option String)
    (resp : HttpResponse) (hresp : env.initialResponse = .ok resp) (hs : resp.status ≠ 402) :
    ((executePayment st env m d).2.limitChecks = 0 ∧
     (executePayment st env m d).2.balanceChecks = 0 ∧
     (executePayment st env m d).2.transferCalls = 0 ∧
     (executePayment st env m d).2.tapBuildCalls = 0 ∧
     (executePayment st env m d).2.txs = []) ∧
    (resp.body = none →
      (executePayment st env m d).1 = ⟨true, some .null, none, none, none, none⟩) ∧
    (∀ j, resp.body = some (.jsonB j) →
      (executePayment st env m d).1 = ⟨true, some j, none, none, none, none⟩) ∧
    (∀ s msg, resp.body = some (.rawB s msg) →
      (executePayment st env m d).1 = failR (.str msg) ∧
      (executePayment st env m d).2.audit = ["payment_error"]) := by
  obtain ⟨status, body⟩ := resp
  simp only at hs
  cases body with
  | none =>
    simp [executePayment, runPayment, hresp, hs, Effects.init]
  | some b =>
    cases b with
    | jsonB j =>
      simp [executePayment, runPayment, hresp, hs, jsonParseBody, Effects.init]
    | rawB s msg =>
      simp [executePayment, runPayment, hresp, hs, jsonParseBody, Effects.init, logA, failR]

/-- Counterexample for C1 as stated: a 200 response whose body is not
valid JSON makes executePayment return success:false, not success:true. -/
theorem executePayment_non402_counterexample :
    envRawBody.initialResponse = .ok ⟨200, some (.rawB "hello" "Unexpected token h in JSON at position 0")⟩ ∧
    (executePayment stInit envRawBody "GET" none).1.success = false ∧
    (executePayment stInit envRawBody "GET" none).1.errVal = some (.str "Unexpected token h in JSON at position 0") ∧
    (executePayment stInit envRawBody "GET" none).2.audit = ["payment_error"] :=
  ⟨rfl, by decide, rfl, by decide⟩

/-- Witness for C1 on a 200 response with a JSON body. -/
theorem executePayment_non402_witness :
    (executePayment stInit envFree "GET" none).1 = ⟨true, some (.obj [("ok", .bool true)]), none, none, none, none⟩ :=
  (executePayment_non402 stInit envFree "GET" none ⟨200, some (.jsonB (.obj [("ok", .bool true)]))⟩
    rfl (by decide)).2.2.1 (.obj [("ok", .bool true)]) rfl

/-- C7 (amended): for a non-2xx retried response the surfaced error is the
body's error field when truthy, else its message field when truthy, else
the generic "Payment failed with status N" (also for absent or non-JSON
bodies and for falsy fields). -/
theorem errorMsgFor_spec (status : ℕ) (body : Option Body) :
    (∀ j v, body = some (.jsonB j) → j.getField "error" = some v → jsTruthy v = true →
      errorMsgFor status body = v) ∧
    (∀ j v, body = some (.jsonB j) → truthyOpt (j.getField "error") = false →
      j.getField "message" = some v → jsTruthy v = true → errorMsgFor status body = v) ∧
    (∀ j, body = some (.jsonB j) → truthyOpt (j.getField "error") = false →
      truthyOpt (j.getField "message") = false →
      errorMsgFor status body = .str ("Payment failed with status " ++ toString status)) ∧
    (body = none → errorMsgFor status body = .str ("Payment failed with status " ++ toString status)) ∧
    (∀ s mg, body = some (.rawB s mg) →
      errorMsgFor status body = .str ("Payment failed with status " ++ toString status)) := by
  refine ⟨?_, ?_, ?_, ?_, ?_⟩
  · rintro j v rfl hf ht
    simp [errorMsgFor, truthyOpt, hf, ht]
  · rintro j v rfl hfe hm ht
    simp only [errorMsgFor]
    rw [hfe]
    simp [truthyOpt, hm, ht]
  · rintro j rfl hfe hfm
    simp [errorMsgFor, hfe, hfm]
  · rintro rfl
    rfl
  · rintro s mg rfl
    rfl

/-- Witness for C7: falsy error field, truthy message field. -/
theorem errorMsgFor_spec_witness :
    errorMsgFor 500 (some (.jsonB errBody500)) = .str "m" :=
  (errorMsgFor_spec 500 (some (.jsonB errBody500))).2.1 errBody500 (.str "m") rfl (by decide) rfl (by decide)

/-- Counterexample for C7 as stated: with error present-but-empty and
message "m", the surfaced error is "m", not the present error field. -/
theorem merchantError_precedence_counterexample :
    envFail500.paymentResponse = .ok ⟨500, some (.jsonB errBody500)⟩ ∧
    errBody500.getField "error" = some (.str "") ∧
    (executePayment stInit envFail500 "GET" none).1.errVal = some (.str "m") ∧
    ("m" : String) ≠ "" :=
  ⟨rfl, rfl, rfl, by decide⟩

/-- Counterexample for C5 as stated: the transfer is confirmed on-chain,
the retried request fails with 500, and zero TransactionRecords are
appended. -/
theorem transactionRecord_missing_counterexample :
    envFail500.transferOutcome = ⟨"0xhash", true, none⟩ ∧
    (executePayment stInit envFail500 "GET" none).2.transferCalls = 1 ∧
    (executePayment stInit envFail500 "GET" none).1.success = false ∧
    (executePayment stInit envFail500 "GET" none).2.txs = [] :=
  ⟨rfl, by decide, by decide, rfl⟩

/-- C3: on an attempt that reaches the balance check with balance below
the required amount, executePayment returns success:false with the
insufficient-balance message, performs zero transfer/signing calls and
appends zero TransactionRecords. -/
theorem insufficientBalance_blocks (st : HandlerState) (env : Env) (m : String) (d : Option String)
    (j x opt : Json) (v : ValidationResult) (w : Wallet) (bal amt : ℚ)
    (hinit : st.initialized = true)
    (hresp : env.initialResponse = .ok ⟨402, some (.jsonB j)⟩)
    (hparse : parseX402Response (.jsonB j) = some x)
    (hne : (acceptsOf x).isEmpty = false)
    (hopt : selectPaymentOption (acceptsOf x) = some opt)
    (hamt : parseAmountField (opt.getField "maxAmountRequired") = .num amt)
    (hval : env.validateResult = .ok v) (hvalid : v.valid = true)
    (hw : env.getWallet = .ok w)
    (hbal : env.balance = .ok (.num bal))
    (hlt : bal < amt) :
    (executePayment st env m d).1 =
      failR (.str ("Insufficient balance. Required: $" ++ toFixed2 (.num amt) ++ " USDC")) ∧
    (executePayment st env m d).2.transferCalls = 0 ∧
    (executePayment st env m d).2.tapBuildCalls = 0 ∧
    (executePayment st env m d).2.txs = [] ∧
    (executePayment st env m d).2.balanceChecks = 1 := by
  have hsb : hasSufficientBalance (.num bal) (.num amt) = false := by
    simp [hasSufficientBalance, not_le.mpr hlt]
  simp [executePayment, runPayment, hresp, hparse, hne, hopt, hamt, hval, hvalid, hinit,
    hw, hbal, hsb, Effects.init, failR]

/-- Witness for C3: the walk-through challenge against an empty wallet. -/
theorem insufficientBalance_blocks_witness :
    (executePayment stInit envPoor "GET" none).1 =
      failR (.str "Insufficient balance. Required: $0.01 USDC") :=
  (insufficientBalance_blocks stInit envPoor "GET" none challenge challenge challengeOpt
    ⟨true, []⟩ ⟨"0xPAYER"⟩ (mkRat 0 1) (mkRat 1 100)
    rfl rfl rfl rfl rfl rfl rfl rfl rfl rfl (by decide)).1

/-- C5 (amended): after a confirmed transfer, a 2xx retried response
appends exactly one success TransactionRecord (and the history is
append-only), while a non-2xx retried response appends none. -/
theorem transactionRecord_per_attempt (st : HandlerState) (env : Env) (m : String)
    (d : Option String) (j x opt : Json) (v : ValidationResult) (w : Wallet) (bal amt : ℚ)
    (pr : HttpResponse) (u : UrlParts)
    (hinit : st.initialized = true)
    (hresp : env.initialResponse = .ok ⟨402, some (.jsonB j)⟩)
    (hparse : parseX402Response (.jsonB j) = some x)
    (hne : (acceptsOf x).isEmpty = false)
    (hopt : selectPaymentOption (acceptsOf x) = some opt)
    (hamt : parseAmountField (opt.getField "maxAmountRequired") = .num amt)
    (hval : env.validateResult = .ok v) (hvalid : v.valid = true)
    (hw : env.getWallet = .ok w)
    (hbal : env.balance = .ok (.num bal))
    (hge : amt ≤ bal)
    (htr : env.transferOutcome.success = true)
    (hhash : env.transferOutcome.txHash ≠ "")
    (hpr : env.paymentResponse = .ok pr)
    (hurl : env.urlParse = .ok u)
    (haddtx : env.addTxResult = .ok ()) :
    (200 ≤ pr.status ∧ pr.status < 300 →
      (executePayment st env m d).2.txs =
        [⟨env.transferOutcome.txHash, env.nowMs, u.hostname, descriptionOf d opt,
          .num amt, "USDC", env.transferOutcome.txHash, "success"⟩]) ∧
    (¬ (200 ≤ pr.status ∧ pr.status < 300) →
      (executePayment st env m d).2.txs = []) := by
  have hTr : executeUSDCTransfer st env = env.transferOutcome := by
    simp [executeUSDCTransfer, hinit, hw]
  have hsb : hasSufficientBalance (.num bal) (.num amt) = true := by
    simp [hasSufficientBalance, hge]
  constructor
  · intro h2
    simp [executePayment, runPayment, reconcile, tapAudit, hresp, hparse, hne, hopt, hamt,
      hval, hvalid, hinit, hw, hbal, hsb, hTr, htr, hhash, hpr, hurl, haddtx, h2,
      Effects.init, logA]
    split <;> simp [Effects.init, logA]
  · intro h2
    simp [executePayment, runPayment, reconcile, tapAudit, hresp, hparse, hne, hopt, hamt,
      hval, hvalid, hinit, hw, hbal, hsb, hTr, htr, hhash, hpr, hurl, haddtx, h2,
      Effects.init, logA]
    split <;> simp [Effects.init, logA]

/-- Witness for C5 on the walk-through success scenario. -/
theorem transactionRecord_per_attempt_witness :
    (executePayment stInit baseEnv "GET" none).2.txs =
      [⟨"0xhash", 1000, "svc", "x402 payment", .num (mkRat 1 100), "USDC", "0xhash", "success"⟩] :=
  (transactionRecord_per_attempt stInit baseEnv "GET" none challenge challenge challengeOpt
    ⟨true, []⟩ ⟨"0xPAYER"⟩ (mkRat 50 1) (mkRat 1 100) ⟨200, some (.jsonB .null)⟩
    ⟨"svc", "svc", "/api", ""⟩ rfl rfl rfl rfl rfl rfl rfl rfl rfl rfl (by decide) rfl
    (by decide) rfl rfl rfl).1 (by decide)

/-- Helper: reconciliation always yields a success or a structured
failure, or re-raises to the outer catch. -/
theorem reconcile_structured (payRes : Except JsError HttpResponse)
    (urlRes : Except JsError UrlParts) (addTxRes : Except JsError Unit) (nowMs : ℤ)
    (d : Option String) (opt : Json) (amount : JsNum) (tr : TransferResult) (eff : Effects) :
    resultStructured (reconcile payRes urlRes addTxRes nowMs d opt amount tr eff) := by
  rcases payRes with e | pr
  · simp [reconcile, resultStructured]
  · rcases urlRes with e | u
    · simp [reconcile, resultStructured]
    · by_cases h2 : 200 ≤ pr.status ∧ pr.status < 300
      · rcases addTxRes with e | ⟨⟩ <;> simp [reconcile, resultStructured, h2]
      · simp [reconcile, resultStructured, h2, failR]

/-- Helper: every inner-run outcome is a success, a structured failure, or
an exception headed for the outer catch. -/
theorem runPayment_structured (st : HandlerState) (env : Env) (m : String) (d : Option String) :
    resultStructured (runPayment st env m d) := by
  rcases hI : env.initialResponse with e | resp
  · simp [runPayment, hI, resultStructured]
  · rcases resp with ⟨status, body⟩
    by_cases hst : status = 402
    · subst hst
      rcases body with _ | b
      · simp [runPayment, hI, resultStructured, failR]
      · rcases hp : parseX402Response b with _ | x
        · simp [runPayment, hI, hp, resultStructured, failR]
        · by_cases hne : (acceptsOf x).isEmpty
          · simp [runPayment, hI, hp, hne, resultStructured, failR]
          · rcases hsel : selectPaymentOption (acceptsOf x) with _ | opt
            · simp [runPayment, hI, hp, hne, hsel, resultStructured, failR]
            · rcases hv : env.validateResult with e | v
              · simp [runPayment, hI, hp, hne, hsel, hv, resultStructured]
              · cases hvv : v.valid with
                | false =>
                  simp [runPayment, hI, hp, hne, hsel, hv, hvv, resultStructured, failR]
                | true =>
                  cases hin : st.initialized with
                  | false =>
                    simp [runPayment, hI, hp, hne, hsel, hv, hvv, hin, resultStructured]
                  | true =>
                    rcases hgw : env.getWallet with e | w
                    · simp [runPayment, hI, hp, hne, hsel, hv, hvv, hin, hgw, resultStructured]
                    · rcases hb : env.balance with e | balv
                      · simp [runPayment, hI, hp, hne, hsel, hv, hvv, hin, hgw, hb,
                          resultStructured]
                      · cases hsb : hasSufficientBalance balv
                          (parseAmountField (opt.getField "maxAmountRequired")) with
                        | false =>
                          simp [runPayment, hI, hp, hne, hsel, hv, hvv, hin, hgw, hb, hsb,
                            resultStructured, failR]
                        | true =>
                          by_cases htr : (executeUSDCTransfer st env).success = false ∨
                              (executeUSDCTransfer st env).txHash = ""
                          · simp [runPayment, hI, hp, hne, hsel, hv, hvv, hin, hgw, hb, hsb,
                              htr, resultStructured, failR]
                          · simp only [runPayment, hI, hp, hne, hsel, hv, hvv, hin, hgw, hb, hsb, htr]
                            simp only [if_true, if_false, ite_false, ite_true]
                            simp [hne, htr]
                            exact reconcile_structured _ _ _ _ _ _ _ _ _
    · rcases body with _ | b
      · simp [runPayment, hI, hst, resultStructured]
      · rcases b with j | ⟨s, msg⟩ <;>
          simp [runPayment, hI, hst, resultStructured, jsonParseBody]

/-- C6: executePayment never propagates an exception: any inner exception
becomes a structured success:false result with the exception message and a
payment_error audit entry, and every failure result carries an error
value. -/
theorem executePayment_no_raw_exception (st : HandlerState) (env : Env) (m : String)
    (d : Option String) :
    (∀ e eff, runPayment st env m d = (.error e, eff) →
      executePayment st env m d = (failR (.str e.msg), logA eff "payment_error")) ∧
    ((executePayment st env m d).1.success = false →
      ((executePayment st env m d).1.errVal).isSome = true) := by
  constructor
  · intro e eff h
    simp [executePayment, h]
  · intro hf
    have hstr := runPayment_structured st env m d
    rcases hrp : runPayment st env m d with ⟨res, eff⟩
    rw [hrp] at hstr
    cases res with
    | ok r =>
      have hre : executePayment st env m d = (r, eff) := by
        simp [executePayment, hrp]
      rw [hre] at hf ⊢
      simp only [resultStructured] at hstr
      rcases hstr with h1 | h2
      · simp_all
      · exact h2
    | error e =>
      have hre : executePayment st env m d = (failR (.str e.msg), logA eff "payment_error") := by
        simp [executePayment, hrp]
      rw [hre]
      simp [failR]

/-- Witness for C6: a throwing initial request yields the structured
failure with payment_error logged. -/
theorem executePayment_no_raw_exception_witness :
    executePayment stInit envNetError "GET" none =
      (failR (.str "network down"), logA Effects.init "payment_error") :=
  (executePayment_no_raw_exception stInit envNetError "GET" none).1 ⟨"network down"⟩
    Effects.init rfl

/-- Helper: the reconciliation result does not depend on the effects
accumulated so far. -/
theorem reconcile_fst_congr (payRes : Except JsError HttpResponse)
    (urlRes : Except JsError UrlParts) (addTxRes : Except JsError Unit) (nowMs : ℤ)
    (d : Option String) (opt : Json) (amount : JsNum) (tr : TransferResult)
    (eff eff' : Effects) :
    (reconcile payRes urlRes addTxRes nowMs d opt amount tr eff).1 =
      (reconcile payRes urlRes addTxRes nowMs d opt amount tr eff').1 := by
  rcases payRes with e | pr
  · rfl
  · rcases urlRes with e | u
    · rfl
    · by_cases h2 : 200 ≤ pr.status ∧ pr.status < 300
      · rcases addTxRes with e | ⟨⟩
        · simp [reconcile, h2]
        · simp [reconcile, h2]
      · simp [reconcile, h2]

/-- Helper: the inner-run result is invariant under the local TAP state. -/
theorem runPayment_fst_tap_invariant (st : HandlerState) (env : Env) (m : String)
    (d : Option String) (t : TapEnv) :
    (runPayment st { env with tap := t } m d).1 = (runPayment st env m d).1 := by
  rcases hI : env.initialResponse with e | resp
  · simp [runPayment, hI]
  · rcases resp with ⟨status, body⟩
    by_cases hst : status = 402
    · subst hst
      rcases body with _ | b
      · simp [runPayment, hI]
      · rcases hp : parseX402Response b with _ | x
        · simp [runPayment, hI, hp]
        · by_cases hne : (acceptsOf x).isEmpty
          · simp [runPayment, hI, hp, hne]
          · rcases hsel : selectPaymentOption (acceptsOf x) with _ | opt
            · simp [runPayment, hI, hp, hne, hsel]
            · rcases hv : env.validateResult with e | v
              · simp [runPayment, hI, hp, hne, hsel, hv]
              · cases hvv : v.valid with
                | false => simp [runPayment, hI, hp, hne, hsel, hv, hvv]
                | true =>
                  cases hin : st.initialized with
                  | false => simp [runPayment, hI, hp, hne, hsel, hv, hvv, hin]
                  | true =>
                    rcases hgw : env.getWallet with e | w
                    · simp [runPayment, hI, hp, hne, hsel, hv, hvv, hin, hgw]
                    · rcases hb : env.balance with e | balv
                      · simp [runPayment, hI, hp, hne, hsel, hv, hvv, hin, hgw, hb]
                      · cases hsb : hasSufficientBalance balv
                            (parseAmountField (opt.getField "maxAmountRequired")) with
                        | false =>
                          simp [runPayment, hI, hp, hne, hsel, hv, hvv, hin, hgw, hb, hsb]
                        | true =>
                          by_cases htr : env.transferOutcome.success = false ∨
                              env.transferOutcome.txHash = ""
                          · simp [runPayment, hI, hp, hne, hsel, hv, hvv, hin, hgw, hb, hsb,
                              executeUSDCTransfer, htr]
                          · simp only [runPayment, hI, hp, hne, hsel, hv, hvv, hin, hgw, hb,
                              hsb, executeUSDCTransfer]
                            simp [hne, htr, executeUSDCTransfer, hin, hgw]
                            exact reconcile_fst_congr _ _ _ _ _ _ _ _ _ _
    · rcases body with _ | b
      · simp [runPayment, hI, hst]
      · rcases b with j | ⟨s, msg⟩ <;> simp [runPayment, hI, hst, jsonParseBody]

/-- Helper: equal inner results give equal executePayment results. -/
theorem executePayment_fst_congr (st : HandlerState) (env env' : Env) (m : String)
    (d : Option String) (h : (runPayment st env' m d).1 = (runPayment st env m d).1) :
    (executePayment st env' m d).1 = (executePayment st env m d).1 := by
  unfold executePayment
  rcases h1 : runPayment st env' m d with ⟨r1, e1⟩
  rcases h2 : runPayment st env m d with ⟨r2, e2⟩
  rw [h1, h2] at h
  simp only at h
  subst h
  cases r1 <;> simp

/-- C4 (amended): attestation attachment is best-effort: with the
attestation absent or expired (and a non-throwing keychain read)
buildHeaders returns null rather than throwing, and the payment result is
unchanged under any local TAP state whatsoever. -/
theorem tapAttestation_bestEffort (env : Env) (m p : String)
    (hatt : env.tap.attestation = none ∨
      ∃ att, env.tap.attestation = some att ∧ att.expiresAt ≤ env.nowMs)
    (hpk : ∃ pk, env.tap.privateKeyHex = .ok pk) :
    buildHeaders env m p = .ok none ∧
    ∀ (st : HandlerState) (d : Option String) (t : TapEnv),
      (executePayment st { env with tap := t } m d).1 = (executePayment st env m d).1 := by
  constructor
  · obtain ⟨pk, hpkeq⟩ := hpk
    rcases hag : env.tap.agent with _ | agent
    · simp [buildHeaders, loadCredentials, hpkeq, hag, bind, Except.bind, pure, Except.pure]
    · rcases hatt with hn | ⟨att, ha, hexp⟩
      · simp [buildHeaders, loadCredentials, hpkeq, hag, hn, bind, Except.bind, pure, Except.pure]
      · rcases pk with _ | pkv
        · simp [buildHeaders, loadCredentials, hpkeq, hag, ha, bind, Except.bind, pure, Except.pure]
        · simp [buildHeaders, loadCredentials, hpkeq, hag, ha, hexp, bind, Except.bind, pure,
            Except.pure]
  · intro st d t
    exact executePayment_fst_congr st env _ m d (runPayment_fst_tap_invariant st env m d t)

/-- Counterexample for C4 as stated: with no attestation on file the
payment completes, buildHeaders was consulted, yet the audit log contains
no attestation-skipped entry. -/
theorem tapSkippedAudit_counterexample :
    baseEnv.tap.attestation = none ∧
    (executePayment stInit baseEnv "GET" none).1.success = true ∧
    (executePayment stInit baseEnv "GET" none).2.tapBuildCalls = 1 ∧
    (executePayment stInit baseEnv "GET" none).2.audit = ["payment_approved", "payment_executed"] ∧
    "tap_headers_skipped" ∉ (executePayment stInit baseEnv "GET" none).2.audit :=
  ⟨rfl, by decide, by decide, by decide, by decide⟩

/-- Witness for C4: an expired attestation makes buildHeaders return
null. -/
theorem tapAttestation_bestEffort_witness :
    buildHeaders envTapExpired "GET" "x402 pay" = .ok none :=
  (tapAttestation_bestEffort envTapExpired "GET" "x402 pay"
    (Or.inr ⟨⟨500, "basic", "jwt-old"⟩, rfl, by decide⟩) ⟨some "ab", rfl⟩).1

end Clawd
